import Mathlib

/-!
Verification of the prompt relay handler in `model/app.py`.

The program is a single FastAPI route: at process start it reads the
environment variables GCP_PROJECT_ID and GCP_REGION into the module
globals PROJECT_ID and REGION; the route `generate` builds the endpoint
reference string
`projects/PROJECT_ID/locations/REGION/endpoints/your-endpoint-id`,
calls `endpoint.predict(instances=[{"prompt": prompt}])` and returns
`{"video_url": response.predictions[0]}`.

The embedding is parameterized over the remote collaborator: a stateful
predict operation, so that recording stubs can observe the exact
outbound payloads across sequential invocations.
-/

/-- A prediction instance, modelling the Python dict payload element
as an association list of string fields. -/
abbrev Inst := List (String × String)

/-- The response of the collaborator predict operation: an ordered
sequence of prediction results. -/
structure PredictResponse where
  predictions : List String
deriving Repr, DecidableEq

/-- A stateful collaborator: given its own state, the endpoint reference
string and the list of instances, it returns a new state and either a
response or a raised failure message. -/
abbrev Collab (σ : Type) := σ → String → List Inst → σ × Except String PredictResponse

/-- Process-wide configuration, the module globals PROJECT_ID and REGION
set at import time from `os.getenv` (which yields `none` when the
variable is unset). -/
structure ProcState where
  PROJECT_ID : Option String
  REGION : Option String
deriving Repr, DecidableEq

/-- Startup, from lines 6 and 7 of `app.py`: PROJECT_ID and REGION are
read from the environment, with no validation. -/
def startup (env : String → Option String) : ProcState :=
  { PROJECT_ID := env "GCP_PROJECT_ID", REGION := env "GCP_REGION" }

/-- Python string formatting of an optional value: `str.format` renders
`None` as the four characters `None`. -/
def pythonStr : Option String → String
  | none => "None"
  | some s => s

/-- The fixed endpoint id literal on line 15 of `app.py`. -/
def endpointId : String := "your-endpoint-id"

/-- The endpoint reference string built on lines 14 to 16 of `app.py`. -/
def endpointRef (st : ProcState) : String :=
  "projects/" ++ pythonStr st.PROJECT_ID ++ "/locations/" ++
    pythonStr st.REGION ++ "/endpoints/" ++ endpointId

/-- The outbound payload built on line 18 of `app.py`: a one-element
list whose element is the single-field dict binding "prompt". -/
def payload (prompt : String) : List Inst :=
  [[("prompt", prompt)]]

/-- Per-request failures of the handler body. -/
inductive HandlerError where
  | remoteCallError (msg : String)
  | emptyResult
deriving Repr, DecidableEq

/-- The success body returned on line 19 of `app.py`. -/
structure SuccessBody where
  video_url : String
deriving Repr, DecidableEq

/-- The handler body, lines 12 to 19 of `app.py`: build the endpoint
reference from the module globals, call predict once with the
one-instance payload, and take the first prediction. An empty
predictions list makes the index access on line 19 raise, embedded here
as `HandlerError.emptyResult`; a raising predict call is embedded as
`HandlerError.remoteCallError`. The module globals are returned
unchanged: the function body never assigns them. -/
def generate {σ : Type} (predict : Collab σ) (st : ProcState) (s : σ)
    (prompt : String) : ProcState × σ × Except HandlerError SuccessBody :=
  match predict s (endpointRef st) (payload prompt) with
  | (s1, Except.error e) => (st, s1, Except.error (HandlerError.remoteCallError e))
  | (s1, Except.ok resp) =>
    match resp.predictions with
    | [] => (st, s1, Except.error HandlerError.emptyResult)
    | u :: _ => (st, s1, Except.ok { video_url := u })

/-- The body of an HTTP response. -/
inductive Body where
  | success (video_url : String)
  | failure
deriving Repr, DecidableEq

/-- An HTTP response. -/
structure HttpResponse where
  status : Nat
  body : Body
deriving Repr, DecidableEq

/-- Modelled from the spec: the HTTP framework layer around the route is
not part of this repository. Per the propagation policy of the spec, a
returned value becomes a 200 response with the JSON body, and an
exception escaping the handler is surfaced as a per-request HTTP error
response (status 500) without crashing the process. -/
def handle {σ : Type} (predict : Collab σ) (st : ProcState) (s : σ)
    (prompt : String) : ProcState × σ × HttpResponse :=
  match generate predict st s prompt with
  | (st1, s1, Except.ok b) => (st1, s1, { status := 200, body := Body.success b.video_url })
  | (st1, s1, Except.error _) => (st1, s1, { status := 500, body := Body.failure })

/-- A collaborator stub that ignores its input and always answers with
the given predictions sequence. -/
def constStub (preds : List String) : Collab Unit :=
  fun s _ _ => (s, Except.ok { predictions := preds })

/-- A collaborator stub that always raises. -/
def raisingStub (msg : String) : Collab Unit :=
  fun s _ _ => (s, Except.error msg)

/-- One recorded outbound call: the endpoint reference it targeted and
the instances it carried. -/
structure Call where
  endpoint : String
  instances : List Inst
deriving Repr, DecidableEq

/-- A recording collaborator stub: appends every call it receives to its
trace and answers with the given predictions sequence. -/
def recordingStub (preds : List String) : Collab (List Call) :=
  fun calls ep insts =>
    (calls ++ [{ endpoint := ep, instances := insts }], Except.ok { predictions := preds })

/-- Instrument an arbitrary collaborator so that every call is also
appended to a trace, without changing its answers. -/
def instrument {σ : Type} (predict : Collab σ) : Collab (List Call × σ) :=
  fun p ep insts =>
    ((p.1 ++ [{ endpoint := ep, instances := insts }], (predict p.2 ep insts).1),
      (predict p.2 ep insts).2)

/-- Claim C1: for every non-empty prompt P, if the collaborator predict
call returns the predictions sequence [U], then the handler returns the
success response whose video_url field is U, the first element of the
predictions sequence. -/
theorem generate_returns_first_prediction (st : ProcState) (P U : String)
    (h : P ≠ "") :
    (handle (constStub [U]) st () P).2.2 =
      { status := 200, body := Body.success U } := by
  rfl

theorem generate_returns_first_prediction_witness :
    ("a cat surfing" : String) ≠ "" ∧
    (handle (constStub ["https://example.com/v1.mp4"])
        { PROJECT_ID := some "p", REGION := some "r" } () "a cat surfing").2.2 =
      { status := 200, body := Body.success "https://example.com/v1.mp4" } :=
  ⟨by decide,
    generate_returns_first_prediction
      { PROJECT_ID := some "p", REGION := some "r" }
      "a cat surfing" "https://example.com/v1.mp4" (by decide)⟩

/-- Claim C2: for every prompt P, the payload the handler submits to the
collaborator predict operation is exactly the one-element list whose
element is the single-field dict binding "prompt" to P, as observed by a
recording stub. -/
theorem generate_payload_shape (st : ProcState) (preds : List String)
    (P : String) :
    (handle (recordingStub preds) st [] P).2.1 =
      [{ endpoint := endpointRef st, instances := [[("prompt", P)]] }] := by
  cases preds <;> rfl

/-- Claim C3: for every prompt, if the collaborator returns an empty
predictions sequence, the index access on line 19 raises and the handler
surfaces a per-request error response; `handle` is a total function, so
the process does not crash. -/
theorem generate_empty_predictions_error (st : ProcState) (P : String) :
    (handle (constStub []) st () P).2.2 =
      { status := 500, body := Body.failure } := by
  rfl

/-- Claim C4: on every invocation the endpoint reference string targeted
by the outbound call is exactly
projects/PROJECT_ID/locations/REGION/endpoints/your-endpoint-id, where
PROJECT_ID and REGION are the values resolved from the environment at
startup and the endpoint id is the fixed literal, identical for every
prompt and every collaborator answer. -/
theorem generate_endpoint_reference_form (env : String → Option String)
    (preds : List String) (P : String) :
    ((handle (recordingStub preds) (startup env) [] P).2.1).map Call.endpoint =
      ["projects/" ++ pythonStr (env "GCP_PROJECT_ID") ++ "/locations/" ++
        pythonStr (env "GCP_REGION") ++ "/endpoints/" ++ endpointId] := by
  cases preds <;> rfl

/-- Claim C5: the handler retains no state between invocations: after
two sequential calls with prompts P1 and P2 against a recording stub,
the trace holds exactly two calls, the first carrying only P1 and the
second carrying only P2. -/
theorem generate_stateless_two_calls (st : ProcState) (preds : List String)
    (P1 P2 : String) :
    (handle (recordingStub preds) st
        ((handle (recordingStub preds) st [] P1).2.1) P2).2.1 =
      [{ endpoint := endpointRef st, instances := [[("prompt", P1)]] },
       { endpoint := endpointRef st, instances := [[("prompt", P2)]] }] := by
  cases preds <;> rfl

/-- Claim C6: for every prompt, if the collaborator predict call raises,
the handler surfaces the failure as an HTTP error response (status 500),
neither swallowing it nor crashing the process. -/
theorem generate_predict_failure_http_error (st : ProcState) (msg P : String) :
    (handle (raisingStub msg) st () P).2.2 =
      { status := 500, body := Body.failure } := by
  rfl

/-- Claim C7 counterexample evidence: with GCP_PROJECT_ID and GCP_REGION
both unset, startup performs no validation, the service accepts traffic,
and a request is handled to completion: the outbound call targets an
endpoint reference containing None for both fields and a 200 response is
returned. This contradicts the claim that no request is handled under
missing project and region configuration. -/
theorem generate_handles_request_without_config :
    (handle (recordingStub ["https://example.com/v1.mp4"])
        (startup (fun _ => none)) [] "hello").2.1 =
      [{ endpoint := "projects/None/locations/None/endpoints/your-endpoint-id",
         instances := [[("prompt", "hello")]] }] ∧
    (handle (recordingStub ["https://example.com/v1.mp4"])
        (startup (fun _ => none)) [] "hello").2.2 =
      { status := 200, body := Body.success "https://example.com/v1.mp4" } := by
  exact ⟨rfl, rfl⟩

/-- Claim C8: each invocation performs exactly one outbound predict call
(for any collaborator behavior, the instrumented trace grows by exactly
the one call built from this request) and modifies no module-level
state: the process-wide configuration comes back unchanged. -/
theorem generate_one_call_no_local_effects {σ : Type} (predict : Collab σ)
    (st : ProcState) (calls : List Call) (s : σ) (P : String) :
    (handle (instrument predict) st (calls, s) P).1 = st ∧
    ((handle (instrument predict) st (calls, s) P).2.1).1 =
      calls ++ [{ endpoint := endpointRef st, instances := payload P }] := by
  rcases h : predict s (endpointRef st) (payload P) with ⟨s1, r⟩
  rcases r with e | resp
  · simp [handle, generate, instrument, h]
  · rcases resp with ⟨preds⟩
    rcases preds with _ | ⟨u, rest⟩ <;> simp [handle, generate, instrument, h]

/-- Claim C9: the handler applies no validation to the prompt: for every
string P, the empty string included, the same pipeline runs, submitting
the one-instance payload binding "prompt" to P and answering with
success status 200, never a 4xx rejection. -/
theorem generate_no_prompt_validation (st : ProcState) (U P : String) :
    (handle (recordingStub [U]) st [] P).2.1 =
      [{ endpoint := endpointRef st, instances := [[("prompt", P)]] }] ∧
    (handle (recordingStub [U]) st [] P).2.2 =
      { status := 200, body := Body.success U } := by
  exact ⟨rfl, rfl⟩

/-- Claim C10: the successful response depends only on the first element
of the predictions sequence: two runs whose collaborator answers share
the same first prediction u produce equal responses, whatever the
prompts and the remaining elements are. -/
theorem generate_depends_only_on_first_prediction (st : ProcState)
    (u : String) (t1 t2 : List String) (P1 P2 : String) :
    (handle (constStub (u :: t1)) st () P1).2.2 =
      (handle (constStub (u :: t2)) st () P2).2.2 := by
  rfl
